import Mathlib

/-!
Verification development for the EV-charging-station service
(`src/app/main.py` of the EV-charging-tunisia repository).

The Python source is embedded shallowly:

* `haversine_distance` (main.py lines 52-64) is translated over `ℝ`, with
  Python's banker's rounding (`round(x, n)`) modelled exactly by `pyRound` /
  `roundTo` at the level of real numbers.
* `update_charger_status` (main.py lines 101-140) is translated with
  timestamps as integer seconds (`datetime` arithmetic only compares
  instants and subtracts a 7-day `timedelta`, which is 604800 seconds).
  The function's database write is modelled by returning the
  `(status, status_updated_at)` pair it commits, `none` when the charger
  row is absent (the code returns without writing in that case).
* `plan_trip` (main.py lines 694-736) is translated with the database
  lookups as arguments: the user's vehicle row (`Option Vehicle`) and the
  outcome of `calculate_driving_distance` (`Option RouteResult`, which in
  the source returns `None` on timeout / request error / no route).
  The persisted `Trip` row is the `.ok` payload; an HTTP 400 is an
  `.error` value and nothing is persisted on that path.
* `get_nearby_chargers` (main.py lines 271-357) is translated with the
  charger table, the per-charger average rating and review count as
  arguments.  The straight-line distance function is a parameter of the
  core (`get_nearby_chargers_core`), instantiated with
  `haversine_distance` to give the endpoint itself; Python's stable
  `list.sort(key=...)` is `List.mergeSort` on the distance key.

Python truthiness is preserved wherever the source relies on it
(`if connector_type:`, `if min_rating and ...`, `not vehicle.range_km`,
`round(avg_rating, 2) if avg_rating else None`).
-/

namespace EVCharging

/-! ## Rounding, as Python's builtin `round` -/

/-- Python's builtin `round` to an integer: round half to even. -/
noncomputable def pyRound (x : ℝ) : ℤ :=
  if x - ⌊x⌋ = 1 / 2 then (if ⌊x⌋ % 2 = 0 then ⌊x⌋ else ⌊x⌋ + 1) else round x

/-- Python's `round(x, ndigits)`. -/
noncomputable def roundTo (ndigits : ℕ) (x : ℝ) : ℝ :=
  (pyRound (x * 10 ^ ndigits) : ℝ) / 10 ^ ndigits

/-! ## GeoDistance: `haversine_distance` (main.py lines 52-64) -/

/-- `math.radians`: degrees to radians. -/
noncomputable def radians (x : ℝ) : ℝ := x * Real.pi / 180

/-- Straight-line (great-circle) distance between two points in kilometers,
rounded to 2 decimals; mean Earth radius `R = 6371` km. -/
noncomputable def haversine_distance (lat1 lon1 lat2 lon2 : ℝ) : ℝ :=
  let R : ℝ := 6371
  let lat1_rad := radians lat1
  let lat2_rad := radians lat2
  let delta_lat := radians (lat2 - lat1)
  let delta_lon := radians (lon2 - lon1)
  let a := Real.sin (delta_lat / 2) ^ 2 +
    Real.cos lat1_rad * Real.cos lat2_rad * Real.sin (delta_lon / 2) ^ 2
  let c := 2 * Real.arcsin (Real.sqrt a)
  let distance := R * c
  roundTo 2 distance

/-! ## Data model (src/app/models.py) -/

/-- A row of the `chargers` table.  `connector_type` is a nullable free-text
column; `status` defaults to `"unknown"`. -/
structure Charger where
  id : ℕ
  name : String
  city : String
  latitude : ℝ
  longitude : ℝ
  usage_type : String
  connector_type : Option String
  status : String

/-- A row of the `charger_reports` table; `created_at` in integer seconds. -/
structure ChargerReport where
  id : ℕ
  charger_id : ℕ
  user_id : Option ℕ
  issue_type : String
  description : String
  status : String
  created_at : ℤ
deriving DecidableEq

/-- A row of the `vehicles` table (`range_km` is nullable). -/
structure Vehicle where
  connector_type : String
  range_km : Option ℚ
  battery_capacity_kwh : Option ℚ
deriving DecidableEq

/-! ## StatusAggregator: `update_charger_status` (main.py lines 101-140) -/

def secondsPerDay : ℤ := 86400

/-- The query condition of main.py lines 109-114: same charger and
`created_at >= seven_days_ago`. -/
def inWindow (seven_days_ago : ℤ) (charger_id : ℕ) (r : ChargerReport) : Bool :=
  decide (r.charger_id = charger_id) && decide (seven_days_ago ≤ r.created_at)

/-- Reports of the charger from the last 7 days
(`seven_days_ago = now - timedelta(days=7)`). -/
def recentReports (now : ℤ) (charger_id : ℕ) (reports : List ChargerReport) : List ChargerReport :=
  reports.filter (inWindow (now - 7 * secondsPerDay) charger_id)

/-- `status_counts.get(t, 0)` after the tally loop of main.py lines 123-125:
the number of reports in the list whose `issue_type` is `t`. -/
def countIssue (reports : List ChargerReport) (t : String) : ℕ :=
  (reports.filter fun r => decide (r.issue_type = t)).length

/-- The if/elif chain of main.py lines 128-137. -/
def resolveStatusFromCounts (counts : String → ℕ) : String :=
  if counts "broken" > 0 ∧ counts "broken" ≥ counts "working" then "broken"
  else if counts "occupied" > counts "working" then "occupied"
  else if counts "under_construction" > counts "working" then "under_construction"
  else if counts "working" > 0 then "working"
  else "unknown"

/-- `update_charger_status(charger_id, db)`: `none` when the charger row is
absent (the code returns without writing), otherwise the
`(status, status_updated_at)` pair committed to the row. -/
def update_charger_status (now : ℤ) (charger : Option Charger) (reports : List ChargerReport) :
    Option (String × ℤ) :=
  match charger with
  | none => none
  | some ch =>
    let recent_reports := recentReports now ch.id reports
    if recent_reports.isEmpty then some ("unknown", now)
    else some (resolveStatusFromCounts (countIssue recent_reports), now)

/-- The status-priority chain in the spec's own words: broken wins if its
count > 0 and its count ≥ the working count; else occupied if > working;
else under_construction if > working; else working if > 0; else unknown. -/
def spec_resolveStatus (broken working occupied under_construction : ℕ) : String :=
  if broken > 0 ∧ broken ≥ working then "broken"
  else if occupied > working then "occupied"
  else if under_construction > working then "under_construction"
  else if working > 0 then "working"
  else "unknown"

/-! ## TripPlanner: `plan_trip` (main.py lines 694-736) -/

/-- A waypoint record as the spec describes it (station id, name,
coordinate).  `plan_trip` serializes the waypoint list with `json.dumps`;
the code under verification only ever stores the empty list. -/
structure Waypoint where
  station_id : ℕ
  name : String
  latitude : ℚ
  longitude : ℚ
deriving DecidableEq

/-- The request body of `POST /trips/plan` (schemas.TripCreate). -/
structure TripCreate where
  start_lat : ℚ
  start_lon : ℚ
  end_lat : ℚ
  end_lon : ℚ
deriving DecidableEq

/-- A successful result of `calculate_driving_distance` (main.py lines 66-99);
the function returns `None` on timeout, request error or no route found. -/
structure RouteResult where
  distance_km : ℚ
  duration_minutes : ℚ
deriving DecidableEq

/-- The `trips` row persisted by `plan_trip`. -/
structure Trip where
  user_id : ℕ
  start_lat : ℚ
  start_lon : ℚ
  end_lat : ℚ
  end_lon : ℚ
  waypoints : List Waypoint
  total_distance_km : ℚ
  estimated_duration_minutes : ℚ
deriving DecidableEq

inductive PlanTripError where
  | vehicleRequired
  | routeFailed
deriving DecidableEq

/-- The `detail` string of the HTTPException raised for each error. -/
def planErrorDetail : PlanTripError → String
  | .vehicleRequired => "Vehicle with range and connector type required"
  | .routeFailed => "Route calculation failed"

/-- The HTTP status code of the raised HTTPException (400 in both cases). -/
def planErrorStatusCode : PlanTripError → ℕ
  | .vehicleRequired => 400
  | .routeFailed => 400

/-- The guard of main.py line 703:
`not vehicle or not vehicle.range_km or not vehicle.connector_type`.
Python truthiness: `None` and `0.0` are falsy for `range_km`, `None` and
`""` for `connector_type` (the column is non-nullable, so `""`). -/
def vehicleMissingInfo : Option Vehicle → Bool
  | none => true
  | some v => decide (v.range_km = none ∨ v.range_km = some 0) || decide (v.connector_type = "")

/-- `plan_trip` with the database reads as arguments: the user's vehicle row
and the route-provider outcome for (start, end).  The `.ok` payload is the
persisted Trip; `.error` is the raised 400 and nothing is persisted. -/
def plan_trip (user_id : ℕ) (vehicle : Option Vehicle) (trip_data : TripCreate)
    (driving : Option RouteResult) : Except PlanTripError Trip :=
  if vehicleMissingInfo vehicle then .error .vehicleRequired
  else
    match driving with
    | none => .error .routeFailed
    | some dr =>
      .ok { user_id := user_id
            start_lat := trip_data.start_lat
            start_lon := trip_data.start_lon
            end_lat := trip_data.end_lat
            end_lon := trip_data.end_lon
            waypoints := []
            total_distance_km := dr.distance_km
            estimated_duration_minutes := dr.duration_minutes }

/-! ## ProximityRanker: `get_nearby_chargers` (main.py lines 271-357) -/

/-- `s.lower().replace(" ", "").replace("-", "")`. -/
def normalize (s : String) : String := ((s.toLower).replace " " "").replace "-" ""

/-- Connector-type filter (main.py lines 286-291): skipped when the query
parameter is falsy (`None` or `""`); otherwise keeps a charger iff its
`connector_type` is truthy and the normalized parameter is a substring of
the normalized column value (Python `in`). -/
def connectorFilter (connector_type : Option String) (chargers : List Charger) : List Charger :=
  match connector_type with
  | none => chargers
  | some ctRaw =>
    if ctRaw = "" then chargers
    else
      chargers.filter fun c =>
        match c.connector_type with
        | none => false
        | some s => decide (s ≠ "" ∧ (normalize ctRaw).toList <:+: (normalize s).toList)

/-- Status filter (main.py lines 294-295): exact match, skipped when the
query parameter is falsy. -/
def statusFilter (status : Option String) (chargers : List Charger) : List Charger :=
  match status with
  | none => chargers
  | some st =>
    if st = "" then chargers
    else chargers.filter fun c => decide (c.status = st)

/-- Distance computation and radius filter (main.py lines 301-308): pair
each charger with its straight-line distance, discard those farther than
`radius_km`. -/
noncomputable def withDistance (dist : ℝ → ℝ → ℝ → ℝ → ℝ) (lat lon radius_km : ℝ)
    (chargers : List Charger) : List (Charger × ℝ) :=
  chargers.filterMap fun c =>
    let straight_distance := dist lat lon c.latitude c.longitude
    if straight_distance ≤ radius_km then some (c, straight_distance) else none

/-- The sort key of main.py line 313: ascending by `straight_distance_km`. -/
noncomputable def pairLE : Charger × ℝ → Charger × ℝ → Bool :=
  fun a b => decide (a.2 ≤ b.2)

/-- The skip condition of main.py lines 329-330:
`if min_rating and (avg_rating is None or avg_rating < min_rating)`.
`min_rating` is falsy when `None` or `0`. -/
noncomputable def ratingExcluded (min_rating : Option ℝ) (avg_rating : Option ℝ) : Bool :=
  match min_rating with
  | none => false
  | some m =>
    if m = 0 then false
    else
      match avg_rating with
      | none => true
      | some a => decide (a < m)

/-- `round(avg_rating, 2) if avg_rating else None` (main.py line 347). -/
noncomputable def roundedRating (avg_rating : Option ℝ) : Option ℝ :=
  match avg_rating with
  | none => none
  | some a => if a = 0 then none else some (roundTo 2 a)

/-- One entry of `nearest_chargers` (the dict of main.py lines 335-349). -/
structure RankedCharger where
  id : ℕ
  name : String
  city : String
  latitude : ℝ
  longitude : ℝ
  usage_type : String
  connector_type : Option String
  status : String
  distance_km : ℝ
  duration_minutes : ℝ
  distance_type : String
  avg_rating : Option ℝ
  review_count : ℕ

/-- Builds the result dict for one charger (main.py lines 335-349): the
haversine distance, an estimated duration of `(d / 50) * 60` minutes
rounded to 1 decimal, and `distance_type = "straight_line"`. -/
noncomputable def mkRanked (avgRating : ℕ → Option ℝ) (reviewCount : ℕ → ℕ)
    (p : Charger × ℝ) : RankedCharger :=
  { id := p.1.id
    name := p.1.name
    city := p.1.city
    latitude := p.1.latitude
    longitude := p.1.longitude
    usage_type := p.1.usage_type
    connector_type := p.1.connector_type
    status := p.1.status
    distance_km := p.2
    duration_minutes := roundTo 1 (p.2 / 50 * 60)
    distance_type := "straight_line"
    avg_rating := roundedRating (avgRating p.1.id)
    review_count := reviewCount p.1.id }

/-- The body of the loop of main.py lines 319-349 for one candidate:
`continue` when the min-rating condition holds, else append the dict. -/
noncomputable def ratingStep (min_rating : Option ℝ) (avgRating : ℕ → Option ℝ)
    (reviewCount : ℕ → ℕ) (p : Charger × ℝ) : Option RankedCharger :=
  if ratingExcluded min_rating (avgRating p.1.id) then none
  else some (mkRanked avgRating reviewCount p)

/-- The two 404s of `get_nearby_chargers`. -/
inductive NearbyError where
  /-- 404 "No chargers found matching criteria" (main.py line 298). -/
  | noMatchingCriteria
  /-- 404 "No chargers found within radius" (main.py line 311). -/
  | noneWithinRadius
deriving DecidableEq

/-- The 200 response body of `get_nearby_chargers` (main.py lines 351-357). -/
structure NearbyResult where
  user_location : ℝ × ℝ
  search_radius_km : ℝ
  total_within_radius : ℕ
  returned_with_routes : ℕ
  nearest_chargers : List RankedCharger

/-- `get_nearby_chargers`, with the straight-line distance function as a
parameter and the database reads as arguments (all chargers, per-charger
average review rating and review count, keyed by charger id).  The stable
ascending sort of main.py line 313 is `List.mergeSort` on the distance
key; the truncation of line 319 is `take limit`; the min-rating filter
runs inside the loop, after the truncation, exactly as in the source. -/
noncomputable def get_nearby_chargers_core (dist : ℝ → ℝ → ℝ → ℝ → ℝ)
    (avgRating : ℕ → Option ℝ) (reviewCount : ℕ → ℕ) (chargers0 : List Charger)
    (lat lon : ℝ) (connector_type status : Option String) (min_rating : Option ℝ)
    (limit : ℕ) (radius_km : ℝ) : Except NearbyError NearbyResult :=
  let chargers := statusFilter status (connectorFilter connector_type chargers0)
  if chargers.isEmpty then .error .noMatchingCriteria
  else
    let chargers_with_distance := withDistance dist lat lon radius_km chargers
    if chargers_with_distance.isEmpty then .error .noneWithinRadius
    else
      let sorted := chargers_with_distance.mergeSort pairLE
      let result_chargers := (sorted.take limit).filterMap
        (ratingStep min_rating avgRating reviewCount)
      .ok { user_location := (lat, lon)
            search_radius_km := radius_km
            total_within_radius := chargers_with_distance.length
            returned_with_routes := result_chargers.length
            nearest_chargers := result_chargers }

/-- The endpoint itself: the core with `haversine_distance`. -/
noncomputable def get_nearby_chargers (avgRating : ℕ → Option ℝ) (reviewCount : ℕ → ℕ)
    (chargers0 : List Charger) (lat lon : ℝ) (connector_type status : Option String)
    (min_rating : Option ℝ) (limit : ℕ) (radius_km : ℝ) : Except NearbyError NearbyResult :=
  get_nearby_chargers_core haversine_distance avgRating reviewCount chargers0
    lat lon connector_type status min_rating limit radius_km

/-- In the spec's words, a candidate survives all three filters within the
radius: it passes the connector-type and status filters, lies within
`radius_km` of the origin, and passes the min-rating threshold.  The count
of survivors is what C4 measures the returned count against. -/
noncomputable def spec_survivorCount (avgRating : ℕ → Option ℝ) (chargers0 : List Charger)
    (lat lon : ℝ) (connector_type status : Option String) (min_rating : Option ℝ)
    (radius_km : ℝ) : ℕ :=
  ((statusFilter status (connectorFilter connector_type chargers0)).filter fun c =>
    decide (haversine_distance lat lon c.latitude c.longitude ≤ radius_km) &&
      !(ratingExcluded min_rating (avgRating c.id))).length

/-! ## Concrete instances used by witnesses and counterexamples -/

/-- A station at the origin, id 1, with no reviews. -/
noncomputable def exChargerA : Charger :=
  { id := 1
    name := "A"
    city := "Tunis"
    latitude := 0
    longitude := 0
    usage_type := "public"
    connector_type := some "Type 2"
    status := "working" }

/-- A second station at the same point, id 2, with average rating 5. -/
noncomputable def exChargerB : Charger :=
  { id := 2
    name := "B"
    city := "Tunis"
    latitude := 0
    longitude := 0
    usage_type := "public"
    connector_type := some "Type 2"
    status := "working" }

/-- A rating table with no reviews anywhere. -/
def exAvgNone : ℕ → Option ℝ := fun _ => none

/-- A review-count table with no reviews anywhere. -/
def exRevCount : ℕ → ℕ := fun _ => 0

/-- A rating table where only charger 2 has reviews (average 5). -/
noncomputable def cexAvg : ℕ → Option ℝ := fun i => if i = 2 then some 5 else none

/-- The single entry returned for `exChargerA` from the origin. -/
noncomputable def exEntry : RankedCharger :=
  { id := 1
    name := "A"
    city := "Tunis"
    latitude := 0
    longitude := 0
    usage_type := "public"
    connector_type := some "Type 2"
    status := "working"
    distance_km := 0
    duration_minutes := 0
    distance_type := "straight_line"
    avg_rating := none
    review_count := 0 }

/-- The response for `[exChargerA]`, origin `(0,0)`, no filters, limit 1. -/
noncomputable def exResult : NearbyResult :=
  { user_location := (0, 0)
    search_radius_km := 100
    total_within_radius := 1
    returned_with_routes := 1
    nearest_chargers := [exEntry] }

/-- The response for `[exChargerA, exChargerB]`, origin `(0,0)`,
`min_rating = 4`, limit 1: charger A is the sole member of the truncated
list and is then dropped by the min-rating check, so nothing is returned
although charger B passes every filter. -/
noncomputable def cexC4Result : NearbyResult :=
  { user_location := (0, 0)
    search_radius_km := 100
    total_within_radius := 2
    returned_with_routes := 0
    nearest_chargers := [] }

/-- A vehicle with range 100 km and connector type CCS. -/
def cexVehicle : Vehicle :=
  { connector_type := "CCS", range_km := some 100, battery_capacity_kwh := none }

/-- A trip request from (0,0) to (0,2): its coordinate-average midpoint
is (0,1). -/
def cexTripData : TripCreate :=
  { start_lat := 0, start_lon := 0, end_lat := 0, end_lon := 2 }

/-- A successful routing outcome of 250 km, exceeding the 100 km range. -/
def cexRoute : RouteResult := { distance_km := 250, duration_minutes := 180 }

/-- A CCS station exactly at the midpoint (0,1) of `cexTripData`. -/
noncomputable def cexMidStation : Charger :=
  { id := 9
    name := "Mid"
    city := "Sousse"
    latitude := 0
    longitude := 1
    usage_type := "public"
    connector_type := some "CCS"
    status := "working" }

/-- The trip row `plan_trip` persists for `cexVehicle`/`cexTripData`/
`cexRoute`: zero waypoints. -/
def cexTrip : Trip :=
  { user_id := 7
    start_lat := 0
    start_lon := 0
    end_lat := 0
    end_lon := 2
    waypoints := []
    total_distance_km := 250
    estimated_duration_minutes := 180 }

/-- The station used in the status-aggregation examples. -/
noncomputable def exStatusCharger : Charger :=
  { id := 3
    name := "S"
    city := "Sfax"
    latitude := 0
    longitude := 0
    usage_type := "public"
    connector_type := none
    status := "unknown" }

/-- A report for charger 3 with the given id, issue type and timestamp. -/
def mkReport (i : ℕ) (t : String) (ts : ℤ) : ChargerReport :=
  { id := i
    charger_id := 3
    user_id := some 1
    issue_type := t
    description := "d"
    status := "open"
    created_at := ts }

/-- Tally {broken: 2, working: 2}, all in-window at `now = 0`. -/
def tieReports : List ChargerReport :=
  [mkReport 1 "broken" 0, mkReport 2 "broken" 0, mkReport 3 "working" 0, mkReport 4 "working" 0]

/-- Tally {broken: 1, occupied: 5, working: 0}, all in-window at `now = 0`. -/
def occMajorityReports : List ChargerReport :=
  [mkReport 1 "broken" 0, mkReport 2 "occupied" 0, mkReport 3 "occupied" 0,
   mkReport 4 "occupied" 0, mkReport 5 "occupied" 0, mkReport 6 "occupied" 0]

/-- A single report 8 days old at `now = 0` (outside the 7-day window). -/
def oldReportOnly : List ChargerReport := [mkReport 1 "broken" (-(8 * secondsPerDay))]

/-! ## Rounding and haversine lemmas -/

theorem pyRound_zero : pyRound 0 = 0 := by
  unfold pyRound
  norm_num

theorem roundTo_zero (n : ℕ) : roundTo n 0 = 0 := by
  unfold roundTo
  rw [zero_mul, pyRound_zero]
  norm_num

theorem pyRound_nonneg {x : ℝ} (hx : 0 ≤ x) : 0 ≤ pyRound x := by
  unfold pyRound
  have hfl : (0 : ℤ) ≤ ⌊x⌋ := Int.floor_nonneg.2 hx
  split
  · split
    · exact hfl
    · omega
  · rw [round_eq]
    exact Int.floor_nonneg.2 (by linarith)

theorem roundTo_nonneg {x : ℝ} (n : ℕ) (hx : 0 ≤ x) : 0 ≤ roundTo n x := by
  unfold roundTo
  have h1 : 0 ≤ x * 10 ^ n := by positivity
  have h2 : (0 : ℝ) ≤ (pyRound (x * 10 ^ n) : ℝ) := by
    exact_mod_cast pyRound_nonneg h1
  positivity

theorem radians_zero : radians 0 = 0 := by
  unfold radians
  ring

theorem radians_neg (x : ℝ) : radians (-x) = -radians x := by
  unfold radians
  ring

theorem haversine_self (lat lon : ℝ) : haversine_distance lat lon lat lon = 0 := by
  unfold haversine_distance
  simp only [sub_self, radians_zero, zero_div, Real.sin_zero, ne_eq,
    OfNat.ofNat_ne_zero, not_false_eq_true, zero_pow, mul_zero, add_zero,
    Real.sqrt_zero, Real.arcsin_zero, mul_zero]
  exact roundTo_zero 2

theorem haversine_comm (lat1 lon1 lat2 lon2 : ℝ) :
    haversine_distance lat1 lon1 lat2 lon2 = haversine_distance lat2 lon2 lat1 lon1 := by
  unfold haversine_distance
  have hlat : radians (lat1 - lat2) = -radians (lat2 - lat1) := by
    rw [← radians_neg]; ring_nf
  have hlon : radians (lon1 - lon2) = -radians (lon2 - lon1) := by
    rw [← radians_neg]; ring_nf
  simp only [hlat, hlon, neg_div, Real.sin_neg, neg_sq]
  ring_nf

theorem haversine_nonneg (lat1 lon1 lat2 lon2 : ℝ) :
    0 ≤ haversine_distance lat1 lon1 lat2 lon2 := by
  unfold haversine_distance
  apply roundTo_nonneg
  have h1 : 0 ≤ Real.arcsin (Real.sqrt (Real.sin (radians (lat2 - lat1) / 2) ^ 2 +
      Real.cos (radians lat1) * Real.cos (radians lat2) *
        Real.sin (radians (lon2 - lon1) / 2) ^ 2)) :=
    Real.arcsin_nonneg.2 (Real.sqrt_nonneg _)
  linarith

theorem haversine_two_decimals (lat1 lon1 lat2 lon2 : ℝ) :
    ∃ n : ℤ, haversine_distance lat1 lon1 lat2 lon2 = (n : ℝ) / 100 := by
  refine ⟨pyRound ((6371 * (2 * Real.arcsin (Real.sqrt (Real.sin (radians (lat2 - lat1) / 2) ^ 2 +
    Real.cos (radians lat1) * Real.cos (radians lat2) *
      Real.sin (radians (lon2 - lon1) / 2) ^ 2)))) * 10 ^ 2), ?_⟩
  unfold haversine_distance roundTo
  norm_num

/-- C9: The haversine distance function satisfies `haversine(x, x) = 0` for
every coordinate `x` and `haversine(a, b) = haversine(b, a)` for every pair
of coordinates; its result is always non-negative and rounded to 2 decimal
places (an integer number of hundredths), computed with mean Earth radius
6371 km. -/
theorem C9_haversine_algebra (lat1 lon1 lat2 lon2 : ℝ) :
    haversine_distance lat1 lon1 lat1 lon1 = 0 ∧
    haversine_distance lat1 lon1 lat2 lon2 = haversine_distance lat2 lon2 lat1 lon1 ∧
    0 ≤ haversine_distance lat1 lon1 lat2 lon2 ∧
    (∃ n : ℤ, haversine_distance lat1 lon1 lat2 lon2 = (n : ℝ) / 100) ∧
    haversine_distance lat1 lon1 lat2 lon2 =
      roundTo 2 (6371 * (2 * Real.arcsin (Real.sqrt (
        Real.sin (radians (lat2 - lat1) / 2) ^ 2 +
        Real.cos (radians lat1) * Real.cos (radians lat2) *
          Real.sin (radians (lon2 - lon1) / 2) ^ 2)))) :=
  ⟨haversine_self lat1 lon1, haversine_comm lat1 lon1 lat2 lon2,
    haversine_nonneg lat1 lon1 lat2 lon2, haversine_two_decimals lat1 lon1 lat2 lon2, rfl⟩

/-! ## Status aggregation: C1 and C5 -/

theorem resolve_eq_spec (counts : String → ℕ) :
    resolveStatusFromCounts counts =
      spec_resolveStatus (counts "broken") (counts "working") (counts "occupied")
        (counts "under_construction") := rfl

/-- C1: For every station, the recomputed status over the in-window reports
follows the priority chain exactly: broken if broken-count > 0 and
broken-count ≥ working-count; else occupied if occupied-count >
working-count; else under_construction if its count > working-count; else
working if working-count > 0; else unknown.  In particular the tally
{broken: 2, working: 2} yields broken, and {broken: 1, occupied: 5,
working: 0} yields broken even though occupied is numerically larger. -/
theorem C1_status_priority_chain (now : ℤ) (ch : Charger) (reports : List ChargerReport) :
    update_charger_status now (some ch) reports =
      some (spec_resolveStatus
        (countIssue (recentReports now ch.id reports) "broken")
        (countIssue (recentReports now ch.id reports) "working")
        (countIssue (recentReports now ch.id reports) "occupied")
        (countIssue (recentReports now ch.id reports) "under_construction"), now) ∧
    update_charger_status 0 (some exStatusCharger) tieReports = some ("broken", 0) ∧
    update_charger_status 0 (some exStatusCharger) occMajorityReports = some ("broken", 0) := by
  refine ⟨?_, by decide, by decide⟩
  unfold update_charger_status
  dsimp only
  rcases h : recentReports now ch.id reports with _ | ⟨r0, rs⟩
  · simp [countIssue, spec_resolveStatus]
  · simp [resolve_eq_spec]

theorem recentReports_idem (now : ℤ) (cid : ℕ) (reports : List ChargerReport) :
    recentReports now cid (recentReports now cid reports) = recentReports now cid reports := by
  unfold recentReports
  rw [List.filter_filter]
  simp

/-- C5: Recomputing a station's status counts only reports whose
`created_at` falls within the trailing 7 days: the result is unchanged if
the report list is replaced by its in-window part, and if no in-window
report exists the status is set to unknown no matter how many older
reports exist (a single report at T-8 days yields unknown). -/
theorem C5_seven_day_window (now : ℤ) (ch : Charger) (reports : List ChargerReport) :
    update_charger_status now (some ch) reports =
      update_charger_status now (some ch) (recentReports now ch.id reports) ∧
    (recentReports now ch.id reports = [] →
      update_charger_status now (some ch) reports = some ("unknown", now)) ∧
    update_charger_status 0 (some exStatusCharger) oldReportOnly = some ("unknown", 0) := by
  refine ⟨?_, ?_, by decide⟩
  · unfold update_charger_status
    dsimp only
    rw [recentReports_idem]
  · intro h
    unfold update_charger_status
    dsimp only
    rw [h]
    rfl

/-! ## Trip planning: C3, C8, C10 -/

theorem plan_run : plan_trip 7 (some cexVehicle) cexTripData (some cexRoute) = .ok cexTrip := by
  rfl

/-- C3 counterexample: vehicle range 100 km, routed distance 250 km
(exceeding the range), and a connector-compatible station sitting exactly
at the coordinate-average midpoint (0,1) — at haversine distance 0, well
within 50 km — yet the persisted trip has zero waypoints, not one. -/
theorem C3_counterexample :
    plan_trip 7 (some cexVehicle) cexTripData (some cexRoute) = .ok cexTrip ∧
    cexVehicle.range_km = some 100 ∧
    cexRoute.distance_km = 250 ∧
    (100 : ℚ) < 250 ∧
    cexMidStation.connector_type = some "CCS" ∧
    (normalize "CCS").toList <:+: (normalize "CCS").toList ∧
    haversine_distance ((0 + 0) / 2) ((0 + 2) / 2) cexMidStation.latitude
      cexMidStation.longitude = 0 ∧
    (0 : ℝ) ≤ 50 ∧
    cexTrip.waypoints.length = 0 ∧
    cexTrip.waypoints.length ≠ 1 := by
  refine ⟨plan_run, rfl, rfl, by norm_num, rfl, List.infix_refl _, ?_, by norm_num, rfl, by decide⟩
  show haversine_distance ((0 + 0) / 2) ((0 + 2) / 2) 0 1 = 0
  have h1 : ((0 : ℝ) + 0) / 2 = 0 := by norm_num
  have h2 : ((0 : ℝ) + 2) / 2 = 1 := by norm_num
  rw [h1, h2]
  exact haversine_self 0 1

/-- C3 (amended): whenever the vehicle check and the primary-leg routing
succeed, the trip is persisted with an empty waypoint list — no midpoint
detour-station search is performed, regardless of whether the routed
distance exceeds the vehicle's range and a compatible station lies within
50 km of the midpoint.  The persisted distance and duration are the
provider's values. -/
theorem C3_amended_no_waypoints (user_id : ℕ) (v : Option Vehicle) (td : TripCreate)
    (dr : Option RouteResult) (t : Trip)
    (h : plan_trip user_id v td dr = .ok t) :
    t.waypoints = [] ∧ (∀ r, dr = some r → t.total_distance_km = r.distance_km) := by
  unfold plan_trip at h
  split at h
  · exact absurd h (by simp)
  · match dr, h with
    | some dr, h =>
      have := Except.ok.inj h
      subst this
      exact ⟨rfl, fun r hr => by cases hr; rfl⟩

theorem C3_amended_witness :
    cexTrip.waypoints = [] ∧
    (∀ r, some cexRoute = some r → cexTrip.total_distance_km = r.distance_km) :=
  C3_amended_no_waypoints 7 (some cexVehicle) cexTripData (some cexRoute) cexTrip plan_run

/-- C8: Trip planning fails with a 400 carrying "Vehicle with range and
connector type required" when the vehicle is absent or its `range_km` or
`connector_type` is falsy, and with a 400 carrying "Route calculation
failed" when the route provider returns no result for the primary leg; in
both failure cases no Trip is persisted (the result is not `.ok`). -/
theorem C8_plan_trip_error_paths (user_id : ℕ) (v : Option Vehicle) (td : TripCreate)
    (dr : Option RouteResult) :
    ((v = none ∨ ∃ veh, v = some veh ∧
        (veh.range_km = none ∨ veh.range_km = some 0 ∨ veh.connector_type = "")) →
      plan_trip user_id v td dr = .error .vehicleRequired) ∧
    (∀ veh, v = some veh → veh.range_km ≠ none → veh.range_km ≠ some 0 →
      veh.connector_type ≠ "" → dr = none →
      plan_trip user_id v td dr = .error .routeFailed) ∧
    planErrorDetail .vehicleRequired = "Vehicle with range and connector type required" ∧
    planErrorDetail .routeFailed = "Route calculation failed" ∧
    planErrorStatusCode .vehicleRequired = 400 ∧
    planErrorStatusCode .routeFailed = 400 ∧
    (∀ e t0, plan_trip user_id v td dr = .error e → plan_trip user_id v td dr ≠ .ok t0) := by
  refine ⟨?_, ?_, rfl, rfl, rfl, rfl, ?_⟩
  · intro hv
    have hmiss : vehicleMissingInfo v = true := by
      rcases hv with rfl | ⟨veh, rfl, hveh⟩
      · rfl
      · unfold vehicleMissingInfo
        rcases hveh with h1 | h1 | h1 <;> simp [h1]
    unfold plan_trip
    rw [hmiss]
    rfl
  · rintro veh rfl h1 h2 h3 rfl
    have hmiss : vehicleMissingInfo (some veh) = false := by
      unfold vehicleMissingInfo
      simp [h1, h2, h3]
    unfold plan_trip
    rw [hmiss]
    rfl
  · intro e t0 he
    rw [he]
    simp

/-- C10: The vehicle precondition is strictly stronger than field presence:
a vehicle whose `range_km` is present but equal to 0 is rejected with the
same 400 "Vehicle with range and connector type required" error, because
the guard tests Python truthiness of `range_km` rather than non-null. -/
theorem C10_zero_range_rejected (user_id : ℕ) (ct : String) (bat : Option ℚ)
    (td : TripCreate) (dr : Option RouteResult) :
    plan_trip user_id
      (some { connector_type := ct, range_km := some 0, battery_capacity_kwh := bat }) td dr =
        .error .vehicleRequired ∧
    planErrorDetail .vehicleRequired = "Vehicle with range and connector type required" ∧
    planErrorStatusCode .vehicleRequired = 400 := by
  refine ⟨?_, rfl, rfl⟩
  unfold plan_trip vehicleMissingInfo
  simp

/-! ## Proximity ranking: helper lemmas -/

theorem pairLE_trans (a b c : Charger × ℝ) (hab : pairLE a b) (hbc : pairLE b c) :
    pairLE a c := by
  simp only [pairLE, decide_eq_true_eq] at hab hbc ⊢
  exact le_trans hab hbc

theorem pairLE_total (a b : Charger × ℝ) : pairLE a b || pairLE b a := by
  simp only [pairLE]
  rcases le_total a.2 b.2 with h | h <;> simp [h]

theorem ratingStep_eq_some {mr : Option ℝ} {avg : ℕ → Option ℝ} {rc : ℕ → ℕ}
    {p : Charger × ℝ} {e : RankedCharger} (h : ratingStep mr avg rc p = some e) :
    e = mkRanked avg rc p ∧ ratingExcluded mr (avg p.1.id) = false := by
  unfold ratingStep at h
  by_cases hc : ratingExcluded mr (avg p.1.id) = true
  · rw [if_pos hc] at h
    exact absurd h (by simp)
  · rw [if_neg hc] at h
    exact ⟨(Option.some.inj h).symm, by simpa using hc⟩

theorem connectorFilter_subset (ct : Option String) (l : List Charger) :
    ∀ c ∈ connectorFilter ct l, c ∈ l := by
  intro c hc
  cases ct with
  | none => exact hc
  | some s =>
    simp only [connectorFilter] at hc
    split at hc
    · exact hc
    · exact List.mem_of_mem_filter hc

theorem statusFilter_subset (st : Option String) (l : List Charger) :
    ∀ c ∈ statusFilter st l, c ∈ l := by
  intro c hc
  cases st with
  | none => exact hc
  | some s =>
    simp only [statusFilter] at hc
    split at hc
    · exact hc
    · exact List.mem_of_mem_filter hc

theorem mem_withDistance {dist : ℝ → ℝ → ℝ → ℝ → ℝ} {lat lon radius : ℝ}
    {l : List Charger} {p : Charger × ℝ} (hp : p ∈ withDistance dist lat lon radius l) :
    p.1 ∈ l ∧ p.2 = dist lat lon p.1.latitude p.1.longitude ∧ p.2 ≤ radius := by
  unfold withDistance at hp
  rcases List.mem_filterMap.1 hp with ⟨c, hc, hce⟩
  dsimp only at hce
  by_cases hd : dist lat lon c.latitude c.longitude ≤ radius
  · rw [if_pos hd] at hce
    obtain rfl := Option.some.inj hce
    exact ⟨hc, rfl, hd⟩
  · rw [if_neg hd] at hce
    exact absurd hce (by simp)

/-- What the `.ok` branch of `get_nearby_chargers_core` returns. -/
theorem nearby_core_ok (dist : ℝ → ℝ → ℝ → ℝ → ℝ) (avgRating : ℕ → Option ℝ)
    (reviewCount : ℕ → ℕ) (chargers0 : List Charger) (lat lon : ℝ)
    (ct st : Option String) (mr : Option ℝ) (limit : ℕ) (radius : ℝ) (r : NearbyResult)
    (h : get_nearby_chargers_core dist avgRating reviewCount chargers0 lat lon ct st mr
      limit radius = .ok r) :
    r.nearest_chargers =
      (((withDistance dist lat lon radius
          (statusFilter st (connectorFilter ct chargers0))).mergeSort pairLE).take
            limit).filterMap (ratingStep mr avgRating reviewCount) ∧
    r.total_within_radius =
      (withDistance dist lat lon radius (statusFilter st (connectorFilter ct chargers0))).length ∧
    r.returned_with_routes = r.nearest_chargers.length := by
  unfold get_nearby_chargers_core at h
  dsimp only at h
  split at h
  · exact absurd h (by simp)
  · split at h
    · exact absurd h (by simp)
    · have := Except.ok.inj h
      subst this
      exact ⟨rfl, rfl, rfl⟩

/-- When each error of `get_nearby_chargers_core` occurs, exactly. -/
theorem nearby_core_error_characterization (dist : ℝ → ℝ → ℝ → ℝ → ℝ)
    (avgRating : ℕ → Option ℝ) (reviewCount : ℕ → ℕ) (chargers0 : List Charger)
    (lat lon : ℝ) (ct st : Option String) (mr : Option ℝ) (limit : ℕ) (radius : ℝ) :
    (get_nearby_chargers_core dist avgRating reviewCount chargers0 lat lon ct st mr
        limit radius = .error .noMatchingCriteria ↔
      statusFilter st (connectorFilter ct chargers0) = []) ∧
    (get_nearby_chargers_core dist avgRating reviewCount chargers0 lat lon ct st mr
        limit radius = .error .noneWithinRadius ↔
      (statusFilter st (connectorFilter ct chargers0) ≠ [] ∧
        withDistance dist lat lon radius (statusFilter st (connectorFilter ct chargers0)) = [])) := by
  unfold get_nearby_chargers_core
  dsimp only
  by_cases h1 : (statusFilter st (connectorFilter ct chargers0)).isEmpty
  · rw [if_pos h1]
    rw [List.isEmpty_iff] at h1
    simp [h1]
  · rw [if_neg h1]
    rw [List.isEmpty_iff] at h1
    by_cases h2 : (withDistance dist lat lon radius
        (statusFilter st (connectorFilter ct chargers0))).isEmpty
    · rw [if_pos h2]
      rw [List.isEmpty_iff] at h2
      simp [h1, h2]
    · rw [if_neg h2]
      rw [List.isEmpty_iff] at h2
      simp [h1, h2]

/-- The returned entries are pairwise sorted ascending by `distance_km`. -/
theorem nearby_entries_sorted (avgRating : ℕ → Option ℝ) (reviewCount : ℕ → ℕ)
    (mr : Option ℝ) (limit : ℕ) (l : List (Charger × ℝ)) :
    (((l.mergeSort pairLE).take limit).filterMap
        (ratingStep mr avgRating reviewCount)).Pairwise
      (fun a b => a.distance_km ≤ b.distance_km) := by
  have hsort : (l.mergeSort pairLE).Pairwise (fun a b => a.2 ≤ b.2) := by
    have h : (l.mergeSort pairLE).Pairwise (fun a b => pairLE a b) :=
      List.sorted_mergeSort pairLE_trans pairLE_total l
    exact h.imp (fun hab => by simpa [pairLE] using hab)
  have htake : ((l.mergeSort pairLE).take limit).Pairwise (fun a b => a.2 ≤ b.2) :=
    hsort.take
  refine htake.filterMap (ratingStep mr avgRating reviewCount) ?_
  intro a b hab x hx y hy
  have hxa := (ratingStep_eq_some hx).1
  have hyb := (ratingStep_eq_some hy).1
  subst hxa
  subst hyb
  simpa [mkRanked] using hab

theorem duration_zero : roundTo 1 ((0 : ℝ) / 50 * 60) = 0 := by
  rw [zero_div, zero_mul]
  exact roundTo_zero 1

theorem nearby_run_single :
    get_nearby_chargers exAvgNone exRevCount [exChargerA] 0 0 none none none 1 100 =
      .ok exResult := by
  have hle : (0 : ℝ) ≤ 100 := by norm_num
  have hwd : withDistance haversine_distance 0 0 100 [exChargerA] = [(exChargerA, 0)] := by
    unfold withDistance
    rw [List.filterMap_cons]
    dsimp only
    rw [show haversine_distance 0 0 exChargerA.latitude exChargerA.longitude = 0 from
      haversine_self 0 0]
    simp [hle]
  have hentry : mkRanked exAvgNone exRevCount (exChargerA, 0) = exEntry := by
    unfold mkRanked exAvgNone exRevCount exChargerA exEntry roundedRating
    dsimp only
    simp only [duration_zero]
  unfold get_nearby_chargers get_nearby_chargers_core
  dsimp only [statusFilter, connectorFilter]
  rw [hwd]
  simp only [List.isEmpty_cons, Bool.false_eq_true, if_false, List.mergeSort_singleton,
    List.take_succ_cons, List.take_nil, List.filterMap_cons, List.filterMap_nil]
  simp only [ratingStep, ratingExcluded]
  rw [if_neg (by simp : ¬ (false = true))]
  rw [hentry]
  rfl

theorem nearby_run_minRating :
    get_nearby_chargers cexAvg exRevCount [exChargerA, exChargerB] 0 0 none none (some 4)
      1 100 = .ok cexC4Result := by
  have hle : (0 : ℝ) ≤ 100 := by norm_num
  have hwd : withDistance haversine_distance 0 0 100 [exChargerA, exChargerB] =
      [(exChargerA, 0), (exChargerB, 0)] := by
    unfold withDistance
    rw [List.filterMap_cons, List.filterMap_cons]
    dsimp only
    rw [show haversine_distance 0 0 exChargerA.latitude exChargerA.longitude = 0 from
      haversine_self 0 0]
    rw [show haversine_distance 0 0 exChargerB.latitude exChargerB.longitude = 0 from
      haversine_self 0 0]
    simp [hle]
  have hsorted : List.Pairwise (fun a b => pairLE a b) [(exChargerA, (0 : ℝ)), (exChargerB, 0)] := by
    refine List.pairwise_cons.2 ⟨?_, List.pairwise_singleton _ _⟩
    intro b hb
    rcases List.mem_singleton.1 hb with rfl
    simp [pairLE]
  have hms : List.mergeSort [(exChargerA, (0 : ℝ)), (exChargerB, 0)] pairLE =
      [(exChargerA, 0), (exChargerB, 0)] := List.mergeSort_of_sorted hsorted
  have hAvg1 : cexAvg exChargerA.id = none := by
    unfold cexAvg exChargerA
    norm_num
  have hexcA : ratingExcluded (some 4) (cexAvg exChargerA.id) = true := by
    rw [hAvg1]
    unfold ratingExcluded
    dsimp only
    rw [if_neg (by norm_num : ¬ (4 : ℝ) = 0)]
  unfold get_nearby_chargers get_nearby_chargers_core
  dsimp only [statusFilter, connectorFilter]
  rw [hwd, hms]
  simp only [List.isEmpty_cons, Bool.false_eq_true, if_false, List.take_succ_cons,
    List.take_nil, List.filterMap_cons, List.filterMap_nil]
  simp only [ratingStep, hexcA, if_true, List.take_zero, List.filterMap_nil]
  rfl

theorem cex_survivor_count :
    spec_survivorCount cexAvg [exChargerA, exChargerB] 0 0 none none (some 4) 100 = 1 := by
  have hdA : decide (haversine_distance 0 0 exChargerA.latitude exChargerA.longitude ≤ 100) =
      true := by
    rw [show haversine_distance 0 0 exChargerA.latitude exChargerA.longitude = 0 from
      haversine_self 0 0]
    exact decide_eq_true (by norm_num)
  have hdB : decide (haversine_distance 0 0 exChargerB.latitude exChargerB.longitude ≤ 100) =
      true := by
    rw [show haversine_distance 0 0 exChargerB.latitude exChargerB.longitude = 0 from
      haversine_self 0 0]
    exact decide_eq_true (by norm_num)
  have hAvg1 : cexAvg exChargerA.id = none := by
    unfold cexAvg exChargerA
    norm_num
  have hAvg2 : cexAvg exChargerB.id = some 5 := by
    unfold cexAvg exChargerB
    norm_num
  have hexcA : ratingExcluded (some 4) (cexAvg exChargerA.id) = true := by
    rw [hAvg1]
    unfold ratingExcluded
    dsimp only
    rw [if_neg (by norm_num : ¬ (4 : ℝ) = 0)]
  have hexcB : ratingExcluded (some 4) (cexAvg exChargerB.id) = false := by
    rw [hAvg2]
    unfold ratingExcluded
    dsimp only
    rw [if_neg (by norm_num : ¬ (4 : ℝ) = 0)]
    exact decide_eq_false (by norm_num)
  unfold spec_survivorCount
  dsimp only [statusFilter, connectorFilter]
  rw [List.filter_cons, List.filter_cons, List.filter_nil]
  rw [hdA, hdB, hexcA, hexcB]
  rfl

/-! ## Proximity ranking: C2, C4, C6, C7 -/

/-- C6: The nearby-chargers result contains at most `limit` entries, is
sorted ascending by `distance_km`, and every entry comes from an input
charger — when fewer entries than `limit` were computed, only those are
returned, never padded. -/
theorem C6_limit_and_sorted (avgRating : ℕ → Option ℝ) (reviewCount : ℕ → ℕ)
    (chargers0 : List Charger) (lat lon : ℝ) (ct st : Option String) (mr : Option ℝ)
    (limit : ℕ) (radius : ℝ) (r : NearbyResult)
    (h : get_nearby_chargers avgRating reviewCount chargers0 lat lon ct st mr limit radius =
      .ok r) :
    r.nearest_chargers.length ≤ limit ∧
    r.nearest_chargers.Pairwise (fun a b => a.distance_km ≤ b.distance_km) ∧
    (∀ e ∈ r.nearest_chargers, ∃ c, c ∈ chargers0 ∧ e.id = c.id) := by
  unfold get_nearby_chargers at h
  obtain ⟨hn, htot, hret⟩ := nearby_core_ok haversine_distance avgRating reviewCount chargers0
    lat lon ct st mr limit radius r h
  refine ⟨?_, ?_, ?_⟩
  · rw [hn]
    refine le_trans (List.length_filterMap_le _ _) ?_
    rw [List.length_take]
    exact min_le_left _ _
  · rw [hn]
    exact nearby_entries_sorted avgRating reviewCount mr limit _
  · rw [hn]
    intro e he
    obtain ⟨p, hp, hpe⟩ := List.mem_filterMap.1 he
    have hp2 : p ∈ (withDistance haversine_distance lat lon radius
        (statusFilter st (connectorFilter ct chargers0))).mergeSort pairLE :=
      List.mem_of_mem_take hp
    have hp3 := List.mem_mergeSort.1 hp2
    have hmem := mem_withDistance hp3
    have hc := statusFilter_subset st _ _ hmem.1
    have hc2 := connectorFilter_subset ct _ _ hc
    have he2 := (ratingStep_eq_some hpe).1
    subst he2
    exact ⟨p.1, hc2, rfl⟩

theorem C6_witness :
    exResult.nearest_chargers.length ≤ 1 ∧
    exResult.nearest_chargers.Pairwise (fun a b => a.distance_km ≤ b.distance_km) ∧
    (∀ e ∈ exResult.nearest_chargers, ∃ c, c ∈ [exChargerA] ∧ e.id = c.id) :=
  C6_limit_and_sorted exAvgNone exRevCount [exChargerA] 0 0 none none none 1 100 exResult
    nearby_run_single

/-- C7: The nearby-chargers search fails with 404 in exactly two cases:
early, when no candidate passes the connector-type and status filters at
all, and after radius filtering, when candidates passed those filters but
none lies within `radius_km` of the origin; there is no other 404. -/
theorem C7_notfound_exactly (avgRating : ℕ → Option ℝ) (reviewCount : ℕ → ℕ)
    (chargers0 : List Charger) (lat lon : ℝ) (ct st : Option String) (mr : Option ℝ)
    (limit : ℕ) (radius : ℝ) :
    (get_nearby_chargers avgRating reviewCount chargers0 lat lon ct st mr limit radius =
        .error .noMatchingCriteria ↔
      statusFilter st (connectorFilter ct chargers0) = []) ∧
    (get_nearby_chargers avgRating reviewCount chargers0 lat lon ct st mr limit radius =
        .error .noneWithinRadius ↔
      (statusFilter st (connectorFilter ct chargers0) ≠ [] ∧
        withDistance haversine_distance lat lon radius
          (statusFilter st (connectorFilter ct chargers0)) = [])) ∧
    (∀ e : NearbyError, e = .noMatchingCriteria ∨ e = .noneWithinRadius) := by
  have h := nearby_core_error_characterization haversine_distance avgRating reviewCount
    chargers0 lat lon ct st mr limit radius
  refine ⟨h.1, h.2, ?_⟩
  intro e
  cases e
  · exact Or.inl rfl
  · exact Or.inr rfl

/-- C2 counterexample: a station inside the routing subset (position 1 of
at most `min(2 × limit, 10) = 2`) is returned with
`distance_type = "straight_line"` and the haversine-based duration — not
`"driving"` — although the route provider was never even consulted, so the
claimed on-success behaviour `distance_type = "driving"` is false. -/
theorem C2_counterexample :
    get_nearby_chargers exAvgNone exRevCount [exChargerA] 0 0 none none none 1 100 =
      .ok exResult ∧
    exResult.nearest_chargers = [exEntry] ∧
    exEntry.distance_type = "straight_line" ∧
    exEntry.distance_type ≠ "driving" ∧
    exEntry.duration_minutes = roundTo 1 (exEntry.distance_km / 50 * 60) := by
  refine ⟨nearby_run_single, rfl, rfl, by decide, ?_⟩
  show (0 : ℝ) = roundTo 1 ((0 : ℝ) / 50 * 60)
  rw [duration_zero]

/-- C2 (amended): the endpoint never calls the route provider and takes no
`min(2 × limit, 10)` routing subset: the distance-sorted in-radius list is
truncated to `limit` directly, and every returned entry carries
`distance_type = "straight_line"` with the haversine distance and an
estimated duration of `(distance_km / 50) * 60` minutes. -/
theorem C2_amended_always_straight_line (avgRating : ℕ → Option ℝ) (reviewCount : ℕ → ℕ)
    (chargers0 : List Charger) (lat lon : ℝ) (ct st : Option String) (mr : Option ℝ)
    (limit : ℕ) (radius : ℝ) (r : NearbyResult)
    (h : get_nearby_chargers avgRating reviewCount chargers0 lat lon ct st mr limit radius =
      .ok r) :
    (∀ e ∈ r.nearest_chargers, e.distance_type = "straight_line") ∧
    (∀ e ∈ r.nearest_chargers, e.duration_minutes = roundTo 1 (e.distance_km / 50 * 60)) ∧
    r.nearest_chargers.length ≤ limit := by
  unfold get_nearby_chargers at h
  obtain ⟨hn, htot, hret⟩ := nearby_core_ok haversine_distance avgRating reviewCount chargers0
    lat lon ct st mr limit radius r h
  refine ⟨?_, ?_, ?_⟩
  · rw [hn]
    intro e he
    obtain ⟨p, hp, hpe⟩ := List.mem_filterMap.1 he
    have he2 := (ratingStep_eq_some hpe).1
    subst he2
    rfl
  · rw [hn]
    intro e he
    obtain ⟨p, hp, hpe⟩ := List.mem_filterMap.1 he
    have he2 := (ratingStep_eq_some hpe).1
    subst he2
    rfl
  · rw [hn]
    refine le_trans (List.length_filterMap_le _ _) ?_
    rw [List.length_take]
    exact min_le_left _ _

theorem C2_amended_witness :
    (∀ e ∈ exResult.nearest_chargers, e.distance_type = "straight_line") ∧
    (∀ e ∈ exResult.nearest_chargers, e.duration_minutes = roundTo 1 (e.distance_km / 50 * 60)) ∧
    exResult.nearest_chargers.length ≤ 1 :=
  C2_amended_always_straight_line exAvgNone exRevCount [exChargerA] 0 0 none none none 1 100
    exResult nearby_run_single

/-- C4 counterexample: with stations A (no reviews) and B (average rating 5)
both at the origin, `min_rating = 4` and `limit = 1`, station B survives
all three filters within the radius (survivor count 1 = limit), yet the
endpoint returns 0 entries: the min-rating filter runs only after the
truncation to `limit`, which kept station A alone, so the claimed
implication "returned count < limit → fewer than limit survivors" fails. -/
theorem C4_counterexample :
    get_nearby_chargers cexAvg exRevCount [exChargerA, exChargerB] 0 0 none none (some 4)
      1 100 = .ok cexC4Result ∧
    cexC4Result.returned_with_routes = 0 ∧
    cexC4Result.nearest_chargers.length = 0 ∧
    spec_survivorCount cexAvg [exChargerA, exChargerB] 0 0 none none (some 4) 100 = 1 ∧
    ¬ (cexC4Result.nearest_chargers.length < 1 →
        spec_survivorCount cexAvg [exChargerA, exChargerB] 0 0 none none (some 4) 100 < 1) := by
  refine ⟨nearby_run_minRating, rfl, rfl, cex_survivor_count, ?_⟩
  intro hcontra
  have h1 := hcontra (by decide)
  rw [cex_survivor_count] at h1
  exact absurd h1 (by decide)

/-- C4 (amended): the connector-type filter, the status filter and the
radius cut are applied before sorting and truncation, and every returned
entry also passes the min-rating threshold — but the min-rating filter is
applied only to the first `limit` sorted candidates (after truncation), so
the returned count can fall below `limit` even when `limit` candidates
survive all filters within the radius. -/
theorem C4_amended_filters (avgRating : ℕ → Option ℝ) (reviewCount : ℕ → ℕ)
    (chargers0 : List Charger) (lat lon : ℝ) (ct st : Option String) (mr : Option ℝ)
    (limit : ℕ) (radius : ℝ) (r : NearbyResult)
    (h : get_nearby_chargers avgRating reviewCount chargers0 lat lon ct st mr limit radius =
      .ok r) :
    r.nearest_chargers.length ≤ limit ∧
    (∀ e ∈ r.nearest_chargers, ratingExcluded mr (avgRating e.id) = false) ∧
    (∀ e ∈ r.nearest_chargers, ∃ c,
      c ∈ statusFilter st (connectorFilter ct chargers0) ∧ e.id = c.id ∧
        haversine_distance lat lon c.latitude c.longitude ≤ radius) := by
  unfold get_nearby_chargers at h
  obtain ⟨hn, htot, hret⟩ := nearby_core_ok haversine_distance avgRating reviewCount chargers0
    lat lon ct st mr limit radius r h
  refine ⟨?_, ?_, ?_⟩
  · rw [hn]
    refine le_trans (List.length_filterMap_le _ _) ?_
    rw [List.length_take]
    exact min_le_left _ _
  · rw [hn]
    intro e he
    obtain ⟨p, hp, hpe⟩ := List.mem_filterMap.1 he
    obtain ⟨he2, hex⟩ := ratingStep_eq_some hpe
    subst he2
    exact hex
  · rw [hn]
    intro e he
    obtain ⟨p, hp, hpe⟩ := List.mem_filterMap.1 he
    have hp2 : p ∈ (withDistance haversine_distance lat lon radius
        (statusFilter st (connectorFilter ct chargers0))).mergeSort pairLE :=
      List.mem_of_mem_take hp
    have hp3 := List.mem_mergeSort.1 hp2
    obtain ⟨hcmem, hdeq, hdle⟩ := mem_withDistance hp3
    have he2 := (ratingStep_eq_some hpe).1
    subst he2
    exact ⟨p.1, hcmem, rfl, by rw [← hdeq]; exact hdle⟩

theorem C4_amended_witness :
    exResult.nearest_chargers.length ≤ 1 ∧
    (∀ e ∈ exResult.nearest_chargers, ratingExcluded none (exAvgNone e.id) = false) ∧
    (∀ e ∈ exResult.nearest_chargers, ∃ c,
      c ∈ statusFilter none (connectorFilter none [exChargerA]) ∧ e.id = c.id ∧
        haversine_distance 0 0 c.latitude c.longitude ≤ 100) :=
  C4_amended_filters exAvgNone exRevCount [exChargerA] 0 0 none none none 1 100 exResult
    nearby_run_single

end EVCharging
